import Mathlib

/-!
Shallow embedding of `bdilab_model_monitor_server/server.py`: the CloudEvents
monitoring pipeline (`EventHandler.post`), the outbound relay (`sendCloudEvent`),
protocol resolution (`get_request_handler`), and server registration
(`CEServer.register_model` / `CEServer.start`).

Python values flowing through the pipeline (request fields, numpy inputs,
metric values, response data) are embedded as `PyVal`.  Collaborators that are
not part of this repository's source tree (the `protocols`, `base` and
`prometheus_metrics` modules, plus the third-party `requests`, `cloudevents`,
`numpy`, `uuid` libraries) are modelled at their interface boundary, as noted
on each definition.
-/

/-- A Python value as it appears in the pipeline: a number, a string, `None`,
or a (possibly nested) list built from `vnil` / `vcons`. -/
inductive PyVal where
  | num (n : Int)
  | str (s : String)
  | pyNone
  | vnil
  | vcons (hd tl : PyVal)
deriving DecidableEq

/-- Build a flat `PyVal` list of numbers. -/
def PyVal.ofInts (l : List Int) : PyVal :=
  l.foldr (fun n acc => PyVal.vcons (PyVal.num n) acc) PyVal.vnil

/-- The shape of a numpy array: a scalar, or `n` elements of a common inner
shape. -/
inductive Shape where
  | scalar
  | dim (n : Nat) (inner : Shape)
deriving DecidableEq

/-- Models `numpy.array(x)` at its interface boundary: conversion succeeds
exactly when the nested structure is rectangular (every element of a list has
the same shape), returning the array's shape; scalars (numbers, strings,
`None`) convert to 0-d arrays; ragged nesting fails (numpy raises). -/
def npShape : PyVal → Option Shape
  | .num _ => some .scalar
  | .str _ => some .scalar
  | .pyNone => some .scalar
  | .vnil => some (.dim 0 .scalar)
  | .vcons h t =>
    match npShape h, npShape t with
    | some s, some (.dim n s') =>
      if n = 0 ∨ s = s' then some (.dim (n + 1) s) else none
    | _, _ => none

/-- Models Python `json.dumps` restricted to the values `PyVal` can carry. -/
def jsonDumps : PyVal → String
  | .num n => toString n
  | .str s => "\"" ++ s ++ "\""
  | .pyNone => "null"
  | .vnil => "[]"
  | .vcons h t =>
    match t with
    | .vnil => "[" ++ jsonDumps h ++ "]"
    | _ => "[" ++ jsonDumps h ++ ", " ++ (jsonDumps t).drop 1

/-- Modelled from the spec: the `prometheus_metrics` module is not in the
source tree.  A `MetricRecord` is one model-reported metric: name, a type tag
from the enumerated set, a value (numeric when well-formed) and labels. -/
structure MetricRecord where
  name : String
  tag : String
  value : PyVal
  labels : List (String × String)
deriving DecidableEq

/-- A metric value is numeric exactly when it is a `PyVal.num`. -/
def isNumeric : PyVal → Bool
  | .num _ => true
  | _ => false

/-- Modelled from the spec: a recognized metric type tag, from the enumerated
set of metric kinds (gauge, counter). -/
def recognizedTag (t : String) : Bool :=
  t == "GAUGE" || t == "COUNTER"

/-- Modelled from the spec: `validate_metrics` (the `prometheus_metrics`
module is not in the source tree).  Checks each record has a non-empty name, a
recognized type tag and a numeric value; all-or-nothing over the batch. -/
def validate_metrics (batch : List MetricRecord) : Bool :=
  batch.all (fun r => r.name != "" && recognizedTag r.tag && isNumeric r.value)

/-- The metrics registry: last-known value per (metric name, label set). -/
def Registry : Type := List ((String × List (String × String)) × Int)

/-- Default labels injected into every record (`DEFAULT_LABELS` in the source,
with the environment default for the deployment namespace). -/
def DEFAULT_LABELS : List (String × String) :=
  [("deployment_namespace", "NOT_IMPLEMENTED")]

/-- Insert one labelled pair into a list sorted by key. -/
def insertPair (p : String × String) : List (String × String) → List (String × String)
  | [] => [p]
  | q :: qs => if q.1 < p.1 then q :: insertPair p qs else p :: q :: qs

/-- Sort labels by key (the spec keys registry entries by sorted labels). -/
def sortPairs (ps : List (String × String)) : List (String × String) :=
  ps.foldr insertPair []

/-- Numeric value of a validated metric record. -/
def valueOf : PyVal → Int
  | .num n => n
  | _ => 0

/-- Update one key of the registry with a merge function. -/
def updAssoc (k : String × List (String × String)) (f : Option Int → Int) :
    Registry → Registry
  | [] => [(k, f none)]
  | (k', v) :: rest =>
    if k = k' then (k', f (some v)) :: rest else (k', v) :: updAssoc k f rest

/-- Modelled from the spec: merge one record into the registry keyed by
(name, sorted(labels with defaults)); counters accumulate, gauges overwrite. -/
def updateOne (reg : Registry) (r : MetricRecord) : Registry :=
  let k := (r.name, sortPairs (r.labels ++ DEFAULT_LABELS))
  if r.tag == "COUNTER" then
    updAssoc k (fun o => o.getD 0 + valueOf r.value) reg
  else
    updAssoc k (fun _ => valueOf r.value) reg

/-- Modelled from the spec: `BdilabMetrics.update` (the `prometheus_metrics`
module is not in the source tree).  Folds a validated batch into the registry;
the event type is passed through as in the source call site (the spec does not
give it a role in the merge). -/
def update (reg : Registry) (batch : List MetricRecord) (_eventType : String) : Registry :=
  batch.foldl updateOne reg

/-- Modelled from the spec: the `protocols` module is not in the source tree.
The wire-protocol identifier for the one registered extractor. -/
def Protocol.common_http : String := "common_http"

/-- The parsed JSON request body as the common-http extractor sees it.
Modelled from the spec: the `common_http` protocol module is not in the source
tree; `ExtractedPayload` is predicted/actual sequences plus a task type, each
read from an optional field of the body. -/
structure RawBody where
  predicted : Option PyVal
  actual : Option PyVal
  taskType : Option String
deriving DecidableEq

/-- The common-http request handler, wrapping the parsed request body
(`CommonRequestHandler(request)` in the source). -/
structure CommonRequestHandler where
  request : RawBody
deriving DecidableEq

/-- The outcome of Python `json.loads` on the raw bytes body when it fails,
modelled at its interface boundary.  `json.loads` raises
`json.decoder.JSONDecodeError` for malformed JSON text, but when the bytes
body is not decodable text at all (invalid UTF-8, e.g. the single byte 0x80)
its internal `bytes.decode` raises `UnicodeDecodeError` instead — a distinct
exception type, not a subclass of `JSONDecodeError`. -/
inductive ParseFailure where
  | jsonDecodeError (msg : String)
  | unicodeDecodeError (msg : String)
deriving DecidableEq

/-- The error taxonomy of the pipeline: `badRequest` is a tornado `HTTPError`
with status 400; every other constructor is an uncaught exception that tornado
turns into a 500 response. -/
inductive PipelineError where
  | badRequest (reason : String)
  | unicodeDecodeError (msg : String)
  | unknownProtocol (protocolId : String)
  | malformedPayload (msg : String)
  | numpyConversion (msg : String)
  | deliveryError (msg : String)
deriving DecidableEq

/-- HTTP status the caller observes for a pipeline result: 200 on success,
400 for a `badRequest` `HTTPError`, 500 for every uncaught exception. -/
def statusOf : Except PipelineError Unit → Nat
  | .ok _ => 200
  | .error (.badRequest _) => 400
  | .error _ => 500

/-- `get_request_handler` from the source: returns a `CommonRequestHandler`
for the common-http protocol and raises `Exception("Unknown protocol ...")`
for any other identifier. -/
def get_request_handler (protocol : String) (request : RawBody) :
    Except PipelineError CommonRequestHandler :=
  if protocol = Protocol.common_http then
    .ok ⟨request⟩
  else
    .error (.unknownProtocol protocol)

/-- Modelled from the spec: `CommonRequestHandler.validate` (module not in the
source tree) checks structural well-formedness — the required fields are
present — without interpreting values; failure is a `BadRequest(400)`. -/
def CommonRequestHandler.validate (h : CommonRequestHandler) :
    Except PipelineError Unit :=
  if h.request.predicted.isSome && h.request.actual.isSome
      && h.request.taskType.isSome then
    .ok ()
  else
    .error (.badRequest "Validation failure")

/-- Modelled from the spec: `CommonRequestHandler.extract_request` (module not
in the source tree) pulls `(y_pred, y_true, task_type)` out of the body; a
field absent after validation is a `MalformedPayload` server error. -/
def CommonRequestHandler.extract_request (h : CommonRequestHandler) :
    Except PipelineError (PyVal × PyVal × String) :=
  match h.request.predicted, h.request.actual, h.request.taskType with
  | some p, some a, some t => .ok (p, a, t)
  | _, _, _ => .error (.malformedPayload "missing field")

/-- The inbound CloudEvent as reconstructed by the external marshaller
(`marshaller.FromRequest`), modelled at its interface boundary: the fields the
pipeline reads back — event id, extension attributes, timestamp. -/
structure InEvent where
  id : Option String
  extensions : List (String × String)
  time : Option String
deriving DecidableEq

/-- The outbound CloudEvent built for the relay (`v1.Event()` with the setter
chain in the source). -/
structure OutEvent where
  contentType : String
  data : PyVal
  id : String
  source : String
  eventType : String
  time : String
  extensions : List (String × String)
deriving DecidableEq

/-- Modelled from the spec: `ModelResponse` (the `base` module is not in the
source tree): optional data payload and optional metrics batch. -/
structure ModelResponse where
  data : Option PyVal
  metrics : Option (List MetricRecord)

/-- Modelled from the spec: `CEModel` (the `base` module is not in the source
tree): a named model with a `process_event` hook taking the numpy-converted
`y_true` / `y_pred` inputs and the merged headers. -/
structure CEModel where
  name : String
  process_event : PyVal → PyVal → List (String × String) → ModelResponse

/-- One outbound HTTP request as issued by `requests.post`. -/
structure HttpReq where
  url : Option String
  headers : List (String × String)
  body : String
deriving DecidableEq

/-- The binary on-wire form produced by the external CloudEvents marshaller
(`ToRequest(event, TypeBinary, json.dumps)`), modelled at its interface
boundary: ce- headers from the envelope attributes and extensions, and the
JSON-encoded data payload as the body. -/
def marshalBinary (e : OutEvent) : List (String × String) × String :=
  ([("ce-specversion", "1.0"), ("ce-id", e.id), ("ce-source", e.source),
    ("ce-type", e.eventType), ("ce-time", e.time),
    ("content-type", e.contentType)]
      ++ e.extensions.map (fun kv => ("ce-" ++ kv.1, kv.2)),
   jsonDumps e.data)

/-- Models `requests.Response.raise_for_status` at its interface boundary: it
raises `HTTPError` exactly when the status code is a client or server error
(400 ≤ status < 600), and returns normally otherwise (1xx, 2xx, 3xx). -/
def raise_for_status (status : Nat) : Except String Unit :=
  if 400 ≤ status ∧ status < 600 then
    .error ("status " ++ toString status)
  else
    .ok ()

/-- The downstream's reaction to the one `requests.post` call: a transport
failure (`.error ()`) or a final HTTP status code. -/
def PostResult : Type := Except Unit Nat

/-- `sendCloudEvent` from the source: marshals the envelope into binary form,
issues exactly one `requests.post` with those headers and body (the returned
list records the calls made), and then `raise_for_status`; a transport failure
of the post itself propagates as an error. -/
def sendCloudEvent (event : OutEvent) (url : Option String)
    (postResult : PostResult) : List HttpReq × Except String Unit :=
  let m := marshalBinary event
  let req : HttpReq := { url := url, headers := m.1, body := m.2 }
  match postResult with
  | .error _ => ([req], .error "transport failure")
  | .ok s => ([req], raise_for_status s)

/-- The per-handler configuration (`EventHandler.initialize` arguments, wired
from `CEServer.__init__`): protocol identifier, reply URL (`Option String`
embeds Python's `None` default as `none` and a configured string as `some`),
and the configured event type and source. -/
structure PipelineEnv where
  protocol : String
  replyUrl : Option String
  event_type : String
  event_source : String

/-- Everything one request brings into `EventHandler.post`, with the external
collaborators' reactions modelled as oracle inputs: the `json.loads` result on
the request body, the transport headers, the inbound CloudEvent reconstructed
by the marshaller, the value `uuid.uuid1().hex` would produce, the value
`datetime.now(timezone.utc).isoformat()` would produce, and the downstream's
reaction to the one relay POST. -/
structure PipelineInput where
  parseResult : Except ParseFailure RawBody
  headers : List (String × String)
  inEvent : InEvent
  freshId : String
  nowTime : String
  deliveryStatus : PostResult

/-- The observable outcome of one `EventHandler.post` run: the result seen by
tornado, whether the model was invoked, the final registry and whether the
registry update was called, the relay attempt (envelope and URL of the
`sendCloudEvent` call, if one was made), and the response body written. -/
structure RunOutcome where
  result : Except PipelineError Unit
  modelInvoked : Bool
  registry : Registry
  updateCalled : Bool
  relayAttempted : Option (OutEvent × Option String)
  bodyWritten : Option PyVal

/-- Outcome of a run that raised before the model was invoked: no side effects
beyond the error. -/
def errOutcome (reg : Registry) (e : PipelineError) : RunOutcome :=
  { result := .error e, modelInvoked := false, registry := reg,
    updateCalled := false, relayAttempted := none, bodyWritten := none }

/-- The metrics side-effect step of `post` (source lines 221-226): a present
batch is validated; a valid batch is folded into the registry, an invalid one
is logged and dropped.  Returns the new registry and whether `update` ran. -/
def metricsStep (reg : Registry) (event_type : String)
    (metrics : Option (List MetricRecord)) : Registry × Bool :=
  match metrics with
  | none => (reg, false)
  | some batch =>
    if validate_metrics batch then (update reg batch event_type, true)
    else (reg, false)

/-- The relay-and-respond step of `post` (source lines 227-246).  If the
response data is present and the reply URL is not the empty string (the
source's `not self.reply_url == ""`), an outbound envelope is built — reusing
the inbound event id when present and non-empty, a fresh uuid otherwise, with
a build-time timestamp and the inbound extensions — and `sendCloudEvent` is
called; if it raises, the write is skipped and the error propagates.
Returns (relay attempt, body written, result). -/
def relayRespondStep (env : PipelineEnv) (inEvent : InEvent)
    (freshId nowTime : String) (delivery : PostResult) (data : Option PyVal) :
    Option (OutEvent × Option String) × Option PyVal × Except PipelineError Unit :=
  match data with
  | none => (none, none, .ok ())
  | some d =>
    if env.replyUrl = some "" then
      (none, some d, .ok ())
    else
      let resp_event_id :=
        match inEvent.id with
        | none => freshId
        | some s => if s = "" then freshId else s
      let revent : OutEvent :=
        { contentType := "application/json", data := d, id := resp_event_id,
          source := env.event_source, eventType := env.event_type,
          time := nowTime, extensions := inEvent.extensions }
      match (sendCloudEvent revent env.replyUrl delivery).2 with
      | .error msg =>
        (some (revent, env.replyUrl), none, .error (.deliveryError msg))
      | .ok _ =>
        (some (revent, env.replyUrl), some d, .ok ())

/-- `EventHandler.post` from the source, as a function from the handler
configuration, the registered model, the registry state and the request's
inputs to the observable outcome.  The step order follows the source: JSON
parse — the `except` clause names only `json.decoder.JSONDecodeError`, so a
`JSONDecodeError` becomes `HTTPError(400)` while a `UnicodeDecodeError` from
an invalid-UTF-8 bytes body escapes the handler uncaught — then protocol
resolution, validate, extract, numpy conversion of `y_true` then `y_pred`
(uncaught exception on failure), model invocation, metrics side-effect,
relay and respond. -/
def EventHandler.post (env : PipelineEnv) (model : CEModel) (reg : Registry)
    (inp : PipelineInput) : RunOutcome :=
  match inp.parseResult with
  | .error (.jsonDecodeError e) =>
    errOutcome reg (.badRequest ("Unrecognized request format: " ++ e))
  | .error (.unicodeDecodeError e) =>
    errOutcome reg (.unicodeDecodeError e)
  | .ok body =>
    match get_request_handler env.protocol body with
    | .error pe => errOutcome reg pe
    | .ok rh =>
      match rh.validate with
      | .error pe => errOutcome reg pe
      | .ok _ =>
        match rh.extract_request with
        | .error pe => errOutcome reg pe
        | .ok (y_pred, y_true, task_type) =>
          match npShape y_true, npShape y_pred with
          | some _, some _ =>
            let hdrs := inp.headers ++ [("task_type", task_type)]
            let response := model.process_event y_true y_pred hdrs
            let m := metricsStep reg env.event_type response.metrics
            let r := relayRespondStep env inp.inEvent inp.freshId inp.nowTime
              inp.deliveryStatus response.data
            { result := r.2.2, modelInvoked := true, registry := m.1,
              updateCalled := m.2, relayAttempted := r.1,
              bodyWritten := r.2.1 }
          | _, _ =>
            errOutcome reg
              (.numpyConversion "Failed to initialize NumPy array from inputs")

/-- `sendCloudEvent` raises on this delivery outcome: a transport failure, or
a final status that `raise_for_status` rejects (400 ≤ status < 600). -/
def sendFails : PostResult → Bool
  | .error _ => true
  | .ok s => decide (400 ≤ s ∧ s < 600)

/-- The server-shell state: the registered model slot (initially empty) and
whether the HTTP server has been started. -/
structure CEServer where
  registered_model : Option CEModel
  serving : Bool

/-- `CEServer.__init__`: no model registered, not serving. -/
def CEServer.init : CEServer :=
  { registered_model := none, serving := false }

/-- `CEServer.register_model` from the source: raises when the model's name is
falsy (the empty string), otherwise stores the model. -/
def CEServer.register_model (s : CEServer) (model : CEModel) :
    Except String CEServer :=
  if model.name = "" then
    .error "Failed to register model, model.name must be provided."
  else
    .ok { s with registered_model := some model }

/-- `CEServer.start` from the source: registers the model first and only then
brings the HTTP server up; a registration failure propagates and the server
never serves. -/
def CEServer.start (s : CEServer) (model : CEModel) : Except String CEServer :=
  match s.register_model model with
  | .error e => .error e
  | .ok s' => .ok { s' with serving := true }

/-! ### Concrete fixtures used by counterexamples and witnesses -/

/-- A well-formed request body: `predicted=[1,0,1]`, `actual=[1,1,1]`. -/
def bodyOk : RawBody :=
  { predicted := some (PyVal.ofInts [1, 0, 1]),
    actual := some (PyVal.ofInts [1, 1, 1]),
    taskType := some "classification" }

/-- A request body with mismatched flat lengths: `predicted` has length 3,
`actual` has length 2. -/
def bodyMismatch : RawBody :=
  { predicted := some (PyVal.ofInts [1, 0, 1]),
    actual := some (PyVal.ofInts [1, 1]),
    taskType := some "classification" }

/-- A ragged nested list, `[[1, 2], [3]]`: numpy refuses to convert it. -/
def raggedVal : PyVal :=
  .vcons (PyVal.ofInts [1, 2]) (.vcons (.vcons (.num 3) .vnil) .vnil)

/-- A request body whose `actual` is ragged. -/
def bodyRagged : RawBody :=
  { predicted := some (PyVal.ofInts [1, 0, 1]),
    actual := some raggedVal,
    taskType := some "classification" }

/-- A model that always answers with data `"ok"` and no metrics. -/
def modelConstData : CEModel :=
  { name := "monitor",
    process_event := fun _ _ _ =>
      { data := some (PyVal.str "ok"), metrics := none } }

/-- A metrics batch containing a record with a non-numeric value. -/
def badBatch : List MetricRecord :=
  [{ name := "accuracy", tag := "GAUGE", value := PyVal.str "oops",
     labels := [("model", "m1")] }]

/-- A model that answers with data and an invalid metrics batch. -/
def modelBadMetrics : CEModel :=
  { name := "monitor",
    process_event := fun _ _ _ =>
      { data := some (PyVal.str "ok"), metrics := some badBatch } }

/-- A model that answers with no data and a valid metrics batch. -/
def modelNoData : CEModel :=
  { name := "monitor",
    process_event := fun _ _ _ =>
      { data := none,
        metrics := some [{ name := "accuracy", tag := "GAUGE",
                           value := PyVal.num 1, labels := [] }] } }

/-- A model with an empty name. -/
def modelNoName : CEModel :=
  { name := "",
    process_event := fun _ _ _ => { data := none, metrics := none } }

/-- Handler configuration with the constructor-default reply URL (`None`). -/
def envNoReply : PipelineEnv :=
  { protocol := Protocol.common_http, replyUrl := none,
    event_type := "io.bdilab.monitor", event_source := "monitor-src" }

/-- Handler configuration with the empty-string reply URL (relay disabled). -/
def envDisabled : PipelineEnv :=
  { protocol := Protocol.common_http, replyUrl := some "",
    event_type := "io.bdilab.monitor", event_source := "monitor-src" }

/-- Handler configuration with a configured relay destination. -/
def envReply : PipelineEnv :=
  { protocol := Protocol.common_http, replyUrl := some "http://sink",
    event_type := "io.bdilab.monitor", event_source := "monitor-src" }

/-- An inbound event with a non-empty id and one extension attribute. -/
def inEvX : InEvent :=
  { id := some "evt-1", extensions := [("a", "1")], time := some "t0" }

/-- An inbound event with an empty id and extensions a=1, b=2. -/
def inEvEmptyId : InEvent :=
  { id := some "", extensions := [("a", "1"), ("b", "2")], time := some "t0" }

/-- A request whose body parses to `bodyOk` and whose relay POST, if made,
gets status 200. -/
def inpOk : PipelineInput :=
  { parseResult := .ok bodyOk, headers := [("Host", "h")], inEvent := inEvX,
    freshId := "fresh-1", nowTime := "2026-01-01T00:00:00+00:00",
    deliveryStatus := .ok 200 }

/-- Like `inpOk`, but the relay destination answers 503. -/
def inpFail : PipelineInput :=
  { parseResult := .ok bodyOk, headers := [("Host", "h")], inEvent := inEvX,
    freshId := "fresh-1", nowTime := "2026-01-01T00:00:00+00:00",
    deliveryStatus := .ok 503 }

/-- Like `inpOk`, but the inbound event id is empty. -/
def inpEmptyId : PipelineInput :=
  { parseResult := .ok bodyOk, headers := [("Host", "h")],
    inEvent := inEvEmptyId, freshId := "fresh-1",
    nowTime := "2026-01-01T00:00:00+00:00", deliveryStatus := .ok 200 }

/-- A request whose raw body is UTF-8 text but not valid JSON: `json.loads`
raises `JSONDecodeError`. -/
def inpBadJson : PipelineInput :=
  { parseResult :=
      .error (.jsonDecodeError "Expecting value: line 1 column 1 (char 0)"),
    headers := [], inEvent := inEvX, freshId := "fresh-1",
    nowTime := "2026-01-01T00:00:00+00:00", deliveryStatus := .ok 200 }

/-- A request whose raw body is the single byte 0x80 — not valid JSON, and
not decodable UTF-8 either: `json.loads` raises `UnicodeDecodeError`. -/
def inpBadUtf8 : PipelineInput :=
  { parseResult :=
      .error (.unicodeDecodeError
        "utf-8 codec cannot decode byte 0x80 in position 0: invalid start byte"),
    headers := [], inEvent := inEvX, freshId := "fresh-1",
    nowTime := "2026-01-01T00:00:00+00:00", deliveryStatus := .ok 200 }

/-- A request carrying `bodyMismatch`. -/
def inpMismatch : PipelineInput :=
  { parseResult := .ok bodyMismatch, headers := [], inEvent := inEvX,
    freshId := "fresh-1", nowTime := "2026-01-01T00:00:00+00:00",
    deliveryStatus := .ok 200 }

/-- A request carrying `bodyRagged`. -/
def inpRagged : PipelineInput :=
  { parseResult := .ok bodyRagged, headers := [], inEvent := inEvX,
    freshId := "fresh-1", nowTime := "2026-01-01T00:00:00+00:00",
    deliveryStatus := .ok 200 }

/-- A fixed outbound envelope for exercising `sendCloudEvent` directly. -/
def outEvX : OutEvent :=
  { contentType := "application/json", data := PyVal.str "ok", id := "evt-1",
    source := "monitor-src", eventType := "io.bdilab.monitor",
    time := "2026-01-01T00:00:00+00:00", extensions := [("a", "1")] }

/-! ### Shared run lemmas -/

/-- A run whose parse, protocol resolution, validation, extraction and numpy
conversion all succeed reduces to: invoke the model, apply the metrics step,
apply the relay-and-respond step. -/
theorem post_success_run (env : PipelineEnv) (model : CEModel) (reg : Registry)
    (inp : PipelineInput) (body : RawBody) (p a : PyVal) (t : String)
    (sa sp : Shape)
    (hbody : inp.parseResult = .ok body)
    (hproto : env.protocol = Protocol.common_http)
    (hp : body.predicted = some p) (ha : body.actual = some a)
    (ht : body.taskType = some t)
    (hsa : npShape a = some sa) (hsp : npShape p = some sp) :
    EventHandler.post env model reg inp =
      { result := (relayRespondStep env inp.inEvent inp.freshId inp.nowTime
          inp.deliveryStatus
          (model.process_event a p (inp.headers ++ [("task_type", t)])).data).2.2,
        modelInvoked := true,
        registry := (metricsStep reg env.event_type
          (model.process_event a p (inp.headers ++ [("task_type", t)])).metrics).1,
        updateCalled := (metricsStep reg env.event_type
          (model.process_event a p (inp.headers ++ [("task_type", t)])).metrics).2,
        relayAttempted := (relayRespondStep env inp.inEvent inp.freshId
          inp.nowTime inp.deliveryStatus
          (model.process_event a p (inp.headers ++ [("task_type", t)])).data).1,
        bodyWritten := (relayRespondStep env inp.inEvent inp.freshId
          inp.nowTime inp.deliveryStatus
          (model.process_event a p (inp.headers ++ [("task_type", t)])).data).2.1 } := by
  simp [EventHandler.post, hbody, hproto, get_request_handler,
    CommonRequestHandler.validate, CommonRequestHandler.extract_request,
    hp, ha, ht, hsa, hsp]

/-- When the delivery outcome is a failure, `sendCloudEvent` raises. -/
theorem sendCloudEvent_fails (e : OutEvent) (u : Option String)
    (d : PostResult) (h : sendFails d = true) :
    ∃ m, (sendCloudEvent e u d).2 = .error m := by
  cases d with
  | error u' => exact ⟨"transport failure", rfl⟩
  | ok s =>
    simp only [sendFails, decide_eq_true_eq] at h
    exact ⟨"status " ++ toString s,
      by simp [sendCloudEvent, raise_for_status, h]⟩

/-- If the relay step made an attempt and the delivery outcome is a failure,
the body is not written and the error propagates as a delivery error. -/
theorem relayRespond_fail (env : PipelineEnv) (inEvent : InEvent)
    (freshId nowTime : String) (delivery : PostResult) (data : Option PyVal)
    (ev : OutEvent) (url : Option String)
    (h : (relayRespondStep env inEvent freshId nowTime delivery data).1 =
      some (ev, url))
    (hf : sendFails delivery = true) :
    (relayRespondStep env inEvent freshId nowTime delivery data).2.1 = none ∧
    ∃ m, (relayRespondStep env inEvent freshId nowTime delivery data).2.2 =
      .error (.deliveryError m) := by
  cases data with
  | none => simp [relayRespondStep] at h
  | some d =>
    by_cases hu : env.replyUrl = some ""
    · simp [relayRespondStep, hu] at h
    · obtain ⟨m, hm⟩ := sendCloudEvent_fails
        { contentType := "application/json", data := d,
          id := match inEvent.id with
                | none => freshId
                | some s => if s = "" then freshId else s,
          source := env.event_source, eventType := env.event_type,
          time := nowTime, extensions := inEvent.extensions }
        env.replyUrl delivery hf
      refine ⟨?_, m, ?_⟩ <;> simp [relayRespondStep, hu, hm]

/-- The relay step's result is either success or a delivery error. -/
theorem relayRespond_result_cases (env : PipelineEnv) (inEvent : InEvent)
    (freshId nowTime : String) (delivery : PostResult) (data : Option PyVal) :
    (relayRespondStep env inEvent freshId nowTime delivery data).2.2 = .ok () ∨
    ∃ m, (relayRespondStep env inEvent freshId nowTime delivery data).2.2 =
      .error (.deliveryError m) := by
  cases data with
  | none => left; rfl
  | some d =>
    by_cases hu : env.replyUrl = some ""
    · left; simp [relayRespondStep, hu]
    · simp only [relayRespondStep, hu]
      cases hs : (sendCloudEvent
          { contentType := "application/json", data := d,
            id := match inEvent.id with
                  | none => freshId
                  | some s => if s = "" then freshId else s,
            source := env.event_source, eventType := env.event_type,
            time := nowTime, extensions := inEvent.extensions }
          env.replyUrl delivery).2 with
      | error m => right; exact ⟨m, by simp [hs]⟩
      | ok u => left; simp [hs]

/-- A batch holding a record with a non-numeric value fails validation. -/
theorem validate_metrics_false_of_bad (batch : List MetricRecord)
    (r : MetricRecord) (hr : r ∈ batch) (hnum : isNumeric r.value = false) :
    validate_metrics batch = false := by
  cases hv : validate_metrics batch with
  | false => rfl
  | true =>
    have := List.all_eq_true.mp hv r hr
    simp [hnum] at this

/-- For a present data payload, the relay step makes an attempt exactly when
the reply URL is not the empty string (the source's `not self.reply_url ==
""`); in particular the `None` constructor default does not disable it. -/
theorem relayRespond_attempt_iff (env : PipelineEnv) (inEvent : InEvent)
    (freshId nowTime : String) (delivery : PostResult) (d : PyVal) :
    (relayRespondStep env inEvent freshId nowTime delivery (some d)).1.isSome
      = true ↔ env.replyUrl ≠ some "" := by
  by_cases hu : env.replyUrl = some ""
  · simp [relayRespondStep, hu]
  · simp only [relayRespondStep, hu, if_false]
    split <;> simp [hu]

/-- C1, counterexample: with the constructor-default destination (`None`,
embedded as `none`) and a present `ModelResponse.data`, the pipeline does
attempt an outbound relay — the unset default does not disable the relay the
way the empty string does, refuting the claim at this concrete input. -/
theorem c1_counterexample :
    envNoReply.replyUrl = none ∧
    (EventHandler.post envNoReply modelConstData [] inpOk).relayAttempted.isSome
      = true :=
  ⟨rfl, rfl⟩

/-- C1 (amended): for every request whose `ModelResponse.data` is present, the
pipeline attempts an outbound relay if and only if the configured destination
is not the empty string; the empty string disables the relay, but the unset
constructor default (`None`) does not — the relay is attempted with the `None`
URL. -/
theorem c1_relay_iff_nonempty_destination (env : PipelineEnv) (model : CEModel)
    (reg : Registry) (inp : PipelineInput) (body : RawBody) (p a : PyVal)
    (t : String) (sa sp : Shape) (d : PyVal)
    (hbody : inp.parseResult = .ok body)
    (hproto : env.protocol = Protocol.common_http)
    (hp : body.predicted = some p) (ha : body.actual = some a)
    (ht : body.taskType = some t)
    (hsa : npShape a = some sa) (hsp : npShape p = some sp)
    (hdata : (model.process_event a p
      (inp.headers ++ [("task_type", t)])).data = some d) :
    (EventHandler.post env model reg inp).relayAttempted.isSome = true ↔
      env.replyUrl ≠ some "" := by
  rw [post_success_run env model reg inp body p a t sa sp hbody hproto hp ha
    ht hsa hsp, hdata]
  exact relayRespond_attempt_iff env inp.inEvent inp.freshId inp.nowTime
    inp.deliveryStatus d

/-- C1 witness: a concrete run through the amended theorem — destination
`"http://sink"` is not the empty string, and the relay is attempted. -/
theorem c1_relay_iff_nonempty_destination_witness :
    (EventHandler.post envReply modelConstData [] inpOk).relayAttempted.isSome
      = true ↔ envReply.replyUrl ≠ some "" :=
  c1_relay_iff_nonempty_destination envReply modelConstData [] inpOk bodyOk
    (PyVal.ofInts [1, 0, 1]) (PyVal.ofInts [1, 1, 1]) "classification"
    (.dim 3 .scalar) (.dim 3 .scalar) (PyVal.str "ok")
    rfl rfl rfl rfl rfl rfl rfl rfl

/-- C2: in every run of the pipeline in which a relay attempt was made and the
delivery fails (transport failure, or a status `raise_for_status` rejects),
the response body is never written and the failure propagates to the caller as
a 500 server error. -/
theorem c2_relay_failure_aborts_write (env : PipelineEnv) (model : CEModel)
    (reg : Registry) (inp : PipelineInput) (ev : OutEvent) (url : Option String)
    (hrel : (EventHandler.post env model reg inp).relayAttempted = some (ev, url))
    (hf : sendFails inp.deliveryStatus = true) :
    (EventHandler.post env model reg inp).bodyWritten = none ∧
    (∃ m, (EventHandler.post env model reg inp).result =
      .error (.deliveryError m)) ∧
    statusOf (EventHandler.post env model reg inp).result = 500 := by
  unfold EventHandler.post at *
  split at hrel
  · simp [errOutcome] at hrel
  · simp [errOutcome] at hrel
  · split at hrel
    · simp [errOutcome] at hrel
    · split at hrel
      · simp [errOutcome] at hrel
      · split at hrel
        · simp [errOutcome] at hrel
        · split at hrel
          · simp only at hrel ⊢
            obtain ⟨hw, m, hm⟩ := relayRespond_fail _ _ _ _ _ _ _ _ hrel hf
            exact ⟨hw, ⟨m, hm⟩, by rw [hm]; rfl⟩
          · simp [errOutcome] at hrel

/-- C2 witness: a concrete run with a configured destination answering 503 —
the body is not written and the caller sees a 500 delivery error. -/
theorem c2_relay_failure_aborts_write_witness :
    (EventHandler.post envReply modelConstData [] inpFail).bodyWritten = none ∧
    (∃ m, (EventHandler.post envReply modelConstData [] inpFail).result =
      .error (.deliveryError m)) ∧
    statusOf (EventHandler.post envReply modelConstData [] inpFail).result
      = 500 :=
  c2_relay_failure_aborts_write envReply modelConstData [] inpFail
    { contentType := "application/json", data := PyVal.str "ok", id := "evt-1",
      source := "monitor-src", eventType := "io.bdilab.monitor",
      time := "2026-01-01T00:00:00+00:00", extensions := [("a", "1")] }
    (some "http://sink") rfl rfl

/-- C3: for every run whose `ModelResponse.metrics` batch contains a record
with a non-numeric value, the batch fails validation: the registry update is
never called, the registry is left exactly as it was (all-or-nothing), the
model was invoked, and the run still proceeds to the relay/respond step
normally (its relay attempt, body write and result are exactly those of the
relay-and-respond step applied to the response data). -/
theorem c3_invalid_metrics_dropped (env : PipelineEnv) (model : CEModel)
    (reg : Registry) (inp : PipelineInput) (body : RawBody) (p a : PyVal)
    (t : String) (sa sp : Shape) (batch : List MetricRecord) (r : MetricRecord)
    (hbody : inp.parseResult = .ok body)
    (hproto : env.protocol = Protocol.common_http)
    (hp : body.predicted = some p) (ha : body.actual = some a)
    (ht : body.taskType = some t)
    (hsa : npShape a = some sa) (hsp : npShape p = some sp)
    (hmet : (model.process_event a p
      (inp.headers ++ [("task_type", t)])).metrics = some batch)
    (hr : r ∈ batch) (hnum : isNumeric r.value = false) :
    (EventHandler.post env model reg inp).updateCalled = false ∧
    (EventHandler.post env model reg inp).registry = reg ∧
    (EventHandler.post env model reg inp).modelInvoked = true ∧
    ((EventHandler.post env model reg inp).relayAttempted,
     (EventHandler.post env model reg inp).bodyWritten,
     (EventHandler.post env model reg inp).result) =
      (relayRespondStep env inp.inEvent inp.freshId inp.nowTime
        inp.deliveryStatus
        (model.process_event a p (inp.headers ++ [("task_type", t)])).data) := by
  have hv := validate_metrics_false_of_bad batch r hr hnum
  rw [post_success_run env model reg inp body p a t sa sp hbody hproto hp ha
    ht hsa hsp]
  simp [metricsStep, hmet, hv]

/-- C3 witness: a concrete run whose model reports a gauge with the string
value "oops" — the registry stays empty and the response is still written. -/
theorem c3_invalid_metrics_dropped_witness :
    (EventHandler.post envDisabled modelBadMetrics [] inpOk).updateCalled
      = false ∧
    (EventHandler.post envDisabled modelBadMetrics [] inpOk).registry = [] ∧
    (EventHandler.post envDisabled modelBadMetrics [] inpOk).modelInvoked
      = true ∧
    ((EventHandler.post envDisabled modelBadMetrics [] inpOk).relayAttempted,
     (EventHandler.post envDisabled modelBadMetrics [] inpOk).bodyWritten,
     (EventHandler.post envDisabled modelBadMetrics [] inpOk).result) =
      (relayRespondStep envDisabled inpOk.inEvent inpOk.freshId inpOk.nowTime
        inpOk.deliveryStatus
        (modelBadMetrics.process_event (PyVal.ofInts [1, 1, 1])
          (PyVal.ofInts [1, 0, 1])
          (inpOk.headers ++ [("task_type", "classification")])).data) :=
  c3_invalid_metrics_dropped envDisabled modelBadMetrics [] inpOk bodyOk
    (PyVal.ofInts [1, 0, 1]) (PyVal.ofInts [1, 1, 1]) "classification"
    (.dim 3 .scalar) (.dim 3 .scalar) badBatch
    { name := "accuracy", tag := "GAUGE", value := PyVal.str "oops",
      labels := [("model", "m1")] }
    rfl rfl rfl rfl rfl rfl rfl rfl (by decide) rfl

/-- C4: whenever a relay is performed, the outbound envelope copies the
inbound extension attributes verbatim, carries the build-time timestamp (not
the inbound one), carries the response data, and its id is the inbound event
id when that is present and non-empty, and the freshly generated (non-empty)
uuid otherwise. -/
theorem c4_outbound_envelope (env : PipelineEnv) (model : CEModel)
    (reg : Registry) (inp : PipelineInput) (body : RawBody) (p a : PyVal)
    (t : String) (sa sp : Shape) (d : PyVal)
    (hbody : inp.parseResult = .ok body)
    (hproto : env.protocol = Protocol.common_http)
    (hp : body.predicted = some p) (ha : body.actual = some a)
    (ht : body.taskType = some t)
    (hsa : npShape a = some sa) (hsp : npShape p = some sp)
    (hdata : (model.process_event a p
      (inp.headers ++ [("task_type", t)])).data = some d)
    (hurl : env.replyUrl ≠ some "")
    (hfresh : inp.freshId ≠ "") :
    ∃ ev : OutEvent,
      (EventHandler.post env model reg inp).relayAttempted =
        some (ev, env.replyUrl) ∧
      ev.extensions = inp.inEvent.extensions ∧
      ev.time = inp.nowTime ∧
      ev.data = d ∧
      ((inp.inEvent.id = none ∨ inp.inEvent.id = some "") →
        ev.id = inp.freshId ∧ ev.id ≠ "") ∧
      (∀ s, inp.inEvent.id = some s → s ≠ "" → ev.id = s) := by
  rw [post_success_run env model reg inp body p a t sa sp hbody hproto hp ha
    ht hsa hsp, hdata]
  refine ⟨{ contentType := "application/json", data := d,
            id := match inp.inEvent.id with
                  | none => inp.freshId
                  | some s => if s = "" then inp.freshId else s,
            source := env.event_source, eventType := env.event_type,
            time := inp.nowTime, extensions := inp.inEvent.extensions },
    ?_, rfl, rfl, rfl, ?_, ?_⟩
  · simp only [relayRespondStep]
    rw [if_neg hurl]
    split <;> rfl
  · rintro (hid | hid) <;> simp [hid, hfresh]
  · intro s hid hs
    simp [hid, hs]

/-- C4 witness: the spec's round-trip scenario — inbound extensions a=1, b=2
and an empty inbound id produce an outbound envelope with the same extensions
and the fresh non-empty id. -/
theorem c4_outbound_envelope_witness :
    ∃ ev : OutEvent,
      (EventHandler.post envReply modelConstData [] inpEmptyId).relayAttempted
        = some (ev, envReply.replyUrl) ∧
      ev.extensions = inpEmptyId.inEvent.extensions ∧
      ev.time = inpEmptyId.nowTime ∧
      ev.data = PyVal.str "ok" ∧
      ((inpEmptyId.inEvent.id = none ∨ inpEmptyId.inEvent.id = some "") →
        ev.id = inpEmptyId.freshId ∧ ev.id ≠ "") ∧
      (∀ s, inpEmptyId.inEvent.id = some s → s ≠ "" → ev.id = s) :=
  c4_outbound_envelope envReply modelConstData [] inpEmptyId bodyOk
    (PyVal.ofInts [1, 0, 1]) (PyVal.ofInts [1, 1, 1]) "classification"
    (.dim 3 .scalar) (.dim 3 .scalar) (PyVal.str "ok")
    rfl rfl rfl rfl rfl rfl rfl rfl (by decide) (by decide)

/-- C5, counterexample: a request body that is not valid JSON — the single
byte 0x80, which is not even decodable UTF-8 — makes `json.loads` raise
`UnicodeDecodeError`; the `except json.decoder.JSONDecodeError` clause does
not catch it, so the caller sees a 500, not the claimed 400-class
`BadRequest`, refuting the claim at this concrete input (the model is still
never invoked). -/
theorem c5_counterexample :
    (EventHandler.post envReply modelConstData [] inpBadUtf8).result =
      .error (.unicodeDecodeError
        "utf-8 codec cannot decode byte 0x80 in position 0: invalid start byte") ∧
    statusOf (EventHandler.post envReply modelConstData [] inpBadUtf8).result
      = 500 ∧
    ¬ statusOf (EventHandler.post envReply modelConstData [] inpBadUtf8).result
      = 400 ∧
    (EventHandler.post envReply modelConstData [] inpBadUtf8).modelInvoked
      = false :=
  ⟨rfl, rfl, by decide, rfl⟩

/-- C5 (amended): for every request body that `json.loads` rejects with a
`JSONDecodeError` (malformed JSON text), the pipeline raises a `BadRequest`
`HTTPError` (status 400) whose reason surfaces the parser error and the model
is never invoked; but for a body whose bytes are invalid UTF-8, `json.loads`
raises `UnicodeDecodeError`, which the `except JSONDecodeError` clause misses:
the request fails with an uncaught 500 (the model still never invoked). -/
theorem c5_json_decode_error_rejected :
    (∀ (env : PipelineEnv) (model : CEModel) (reg : Registry)
        (inp : PipelineInput) (e : String),
      inp.parseResult = .error (.jsonDecodeError e) →
      (EventHandler.post env model reg inp).result =
        .error (.badRequest ("Unrecognized request format: " ++ e)) ∧
      statusOf (EventHandler.post env model reg inp).result = 400 ∧
      (EventHandler.post env model reg inp).modelInvoked = false) ∧
    (∀ (env : PipelineEnv) (model : CEModel) (reg : Registry)
        (inp : PipelineInput) (e : String),
      inp.parseResult = .error (.unicodeDecodeError e) →
      (EventHandler.post env model reg inp).result =
        .error (.unicodeDecodeError e) ∧
      statusOf (EventHandler.post env model reg inp).result = 500 ∧
      (EventHandler.post env model reg inp).modelInvoked = false) := by
  constructor
  · intro env model reg inp e h
    unfold EventHandler.post
    rw [h]
    exact ⟨rfl, rfl, rfl⟩
  · intro env model reg inp e h
    unfold EventHandler.post
    rw [h]
    exact ⟨rfl, rfl, rfl⟩

/-- C5 witness: a concrete malformed-JSON (but valid-UTF-8) request hits the
caught 400 branch, and a concrete invalid-UTF-8 request hits the uncaught 500
branch. -/
theorem c5_json_decode_error_rejected_witness :
    ((EventHandler.post envReply modelConstData [] inpBadJson).result =
      .error (.badRequest ("Unrecognized request format: " ++
        "Expecting value: line 1 column 1 (char 0)")) ∧
     statusOf (EventHandler.post envReply modelConstData [] inpBadJson).result
       = 400 ∧
     (EventHandler.post envReply modelConstData [] inpBadJson).modelInvoked
       = false) ∧
    ((EventHandler.post envReply modelConstData [] inpBadUtf8).result =
      .error (.unicodeDecodeError
        "utf-8 codec cannot decode byte 0x80 in position 0: invalid start byte") ∧
     statusOf (EventHandler.post envReply modelConstData [] inpBadUtf8).result
       = 500 ∧
     (EventHandler.post envReply modelConstData [] inpBadUtf8).modelInvoked
       = false) :=
  ⟨c5_json_decode_error_rejected.1 envReply modelConstData [] inpBadJson
     "Expecting value: line 1 column 1 (char 0)" rfl,
   c5_json_decode_error_rejected.2 envReply modelConstData [] inpBadUtf8
     "utf-8 codec cannot decode byte 0x80 in position 0: invalid start byte"
     rfl⟩

/-- C6, counterexample: a relay delivery ending with status 304 — a non-2xx
status — completes without error (`raise_for_status` only rejects 4xx/5xx),
refuting the claim that every non-2xx response, 3xx included, fails. -/
theorem c6_counterexample :
    (sendCloudEvent outEvX (some "http://sink") (.ok 304)).2 = .ok () ∧
    ¬(200 ≤ 304 ∧ 304 < 300) :=
  ⟨rfl, by decide⟩

/-- C6 (amended): every outbound delivery attempt performs exactly one
synchronous POST carrying the binary-marshalled envelope, and it fails exactly
on transport failure or on a 4xx/5xx response status (400 ≤ status < 600);
1xx, 2xx and 3xx final statuses do not fail. -/
theorem c6_send_one_post_fails_on_4xx_5xx (e : OutEvent) (u : Option String)
    (pr : PostResult) :
    (sendCloudEvent e u pr).1 =
      [{ url := u, headers := (marshalBinary e).1,
         body := (marshalBinary e).2 }] ∧
    ((∃ m, (sendCloudEvent e u pr).2 = .error m) ↔
      (pr = .error () ∨ ∃ s, pr = .ok s ∧ 400 ≤ s ∧ s < 600)) := by
  cases pr with
  | error u' => exact ⟨rfl, by simp [sendCloudEvent]⟩
  | ok s =>
    refine ⟨rfl, ?_⟩
    by_cases hs : 400 ≤ s ∧ s < 600
    · refine ⟨fun _ => Or.inr ⟨s, rfl, hs⟩,
        fun _ => ⟨"status " ++ toString s, ?_⟩⟩
      simp [sendCloudEvent, raise_for_status, hs]
    · refine ⟨fun h => ?_, fun h => ?_⟩
      · obtain ⟨m, hm⟩ := h
        simp [sendCloudEvent, raise_for_status, hs] at hm
      · rcases h with h | ⟨s', hs', hrange⟩
        · simp at h
        · injection hs' with he
          subst he
          exact absurd hrange hs

/-- C7: protocol resolution returns the common-http request handler for the
common-http identifier and raises an unknown-protocol error for every other
identifier; and in a server configured with the common-http protocol, no
per-request run of the pipeline can end in the unknown-protocol failure. -/
theorem c7_protocol_resolution :
    (∀ req : RawBody,
      get_request_handler Protocol.common_http req = .ok ⟨req⟩) ∧
    (∀ (p : String) (req : RawBody), p ≠ Protocol.common_http →
      get_request_handler p req = .error (.unknownProtocol p)) ∧
    (∀ (env : PipelineEnv) (model : CEModel) (reg : Registry)
        (inp : PipelineInput) (q : String),
      env.protocol = Protocol.common_http →
      (EventHandler.post env model reg inp).result ≠
        .error (.unknownProtocol q)) := by
  refine ⟨fun req => by simp [get_request_handler],
    fun p req hp => by simp [get_request_handler, hp], ?_⟩
  intro env model reg inp q hproto
  cases hpr : inp.parseResult with
  | error e => cases e <;> simp [EventHandler.post, hpr, errOutcome]
  | ok body =>
    rcases hpd : body.predicted with _ | p
    · simp [EventHandler.post, hpr, hproto, get_request_handler,
        CommonRequestHandler.validate, hpd, errOutcome]
    · rcases hact : body.actual with _ | a
      · simp [EventHandler.post, hpr, hproto, get_request_handler,
          CommonRequestHandler.validate, hpd, hact, errOutcome]
      · rcases htt : body.taskType with _ | t1
        · simp [EventHandler.post, hpr, hproto, get_request_handler,
            CommonRequestHandler.validate, hpd, hact, htt, errOutcome]
        · rcases hsa : npShape a with _ | sa
          · simp [EventHandler.post, hpr, hproto, get_request_handler,
              CommonRequestHandler.validate, CommonRequestHandler.extract_request,
              hpd, hact, htt, hsa, errOutcome]
          · rcases hsp : npShape p with _ | sp
            · simp [EventHandler.post, hpr, hproto, get_request_handler,
                CommonRequestHandler.validate,
                CommonRequestHandler.extract_request,
                hpd, hact, htt, hsa, hsp, errOutcome]
            · rw [post_success_run env model reg inp body p a t1 sa sp hpr
                hproto hpd hact htt hsa hsp]
              rcases relayRespond_result_cases env inp.inEvent inp.freshId
                  inp.nowTime inp.deliveryStatus
                  (model.process_event a p
                    (inp.headers ++ [("task_type", t1)])).data with
                h | ⟨m, h⟩ <;> simp [h]

/-- C7 witness: resolution fails concretely for the identifier "grpc", and a
concrete common-http run does not end in an unknown-protocol failure. -/
theorem c7_protocol_resolution_witness :
    get_request_handler "grpc" bodyOk = .error (.unknownProtocol "grpc") ∧
    (EventHandler.post envNoReply modelConstData [] inpOk).result ≠
      .error (.unknownProtocol "grpc") :=
  ⟨c7_protocol_resolution.2.1 "grpc" bodyOk (by decide),
   c7_protocol_resolution.2.2 envNoReply modelConstData [] inpOk "grpc" rfl⟩

/-- C8: a freshly constructed server has no model registered; `register_model`
fails exactly when the model's name is empty (raising its fixed message and
leaving the server unstarted), and when the name is non-empty `start`
registers the model before serving begins — every serving server holds the
registered model. -/
theorem c8_register_model :
    CEServer.init.registered_model = none ∧
    (∀ (s : CEServer) (m : CEModel),
      (∃ e, s.register_model m = .error e) ↔ m.name = "") ∧
    (∀ (s : CEServer) (m : CEModel), m.name = "" →
      s.register_model m =
        .error "Failed to register model, model.name must be provided." ∧
      ∀ s', s.start m ≠ .ok s') ∧
    (∀ (s : CEServer) (m : CEModel), m.name ≠ "" →
      s.start m = .ok { registered_model := some m, serving := true }) ∧
    (∀ (s : CEServer) (m : CEModel) (s' : CEServer), s.start m = .ok s' →
      s'.registered_model = some m ∧ s'.serving = true) := by
  refine ⟨rfl, ?_, ?_, ?_, ?_⟩
  · intro s m
    constructor
    · rintro ⟨e, he⟩
      by_contra hn
      simp [CEServer.register_model, hn] at he
    · intro hn
      exact ⟨"Failed to register model, model.name must be provided.",
        by simp [CEServer.register_model, hn]⟩
  · intro s m hn
    refine ⟨by simp [CEServer.register_model, hn], ?_⟩
    intro s' hs
    simp [CEServer.start, CEServer.register_model, hn] at hs
  · intro s m hn
    simp [CEServer.start, CEServer.register_model, hn]
  · intro s m s' hs
    by_cases hn : m.name = ""
    · simp [CEServer.start, CEServer.register_model, hn] at hs
    · simp [CEServer.start, CEServer.register_model, hn] at hs
      rw [← hs]
      exact ⟨rfl, rfl⟩

/-- C8 witness: registering a named model on a fresh server succeeds and the
serving server holds it; registering a nameless model fails. -/
theorem c8_register_model_witness :
    (∃ e, CEServer.init.register_model modelNoName = .error e) ∧
    CEServer.init.register_model modelNoName =
      .error "Failed to register model, model.name must be provided." ∧
    CEServer.init.start modelConstData =
      .ok { registered_model := some modelConstData, serving := true } :=
  ⟨(c8_register_model.2.1 CEServer.init modelNoName).mpr rfl,
   (c8_register_model.2.2.1 CEServer.init modelNoName rfl).1,
   c8_register_model.2.2.2.1 CEServer.init modelConstData (by decide)⟩

/-- C9, counterexample: a well-formed request with `predicted` of length 3 and
`actual` of length 2 — both flat numeric lists — passes the numpy conversion
(the two arrays are converted independently, with no cross-check of lengths),
the model is invoked, and the request succeeds with status 200, refuting the
claimed conversion failure and 5xx. -/
theorem c9_counterexample :
    bodyMismatch.predicted = some (PyVal.ofInts [1, 0, 1]) ∧
    bodyMismatch.actual = some (PyVal.ofInts [1, 1]) ∧
    (EventHandler.post envDisabled modelConstData [] inpMismatch).modelInvoked
      = true ∧
    statusOf (EventHandler.post envDisabled modelConstData [] inpMismatch).result
      = 200 :=
  ⟨rfl, rfl, rfl, rfl⟩

/-- C9 (amended): the numpy conversion step fails exactly when an extracted
input is not convertible to a uniform array (e.g. ragged nesting) — in that
case the request ends in a 500 server error before the model is invoked and
the registry is unchanged; mismatched flat lengths are not such a failure. -/
theorem c9_conversion_failure (env : PipelineEnv) (model : CEModel)
    (reg : Registry) (inp : PipelineInput) (body : RawBody) (p a : PyVal)
    (t : String)
    (hbody : inp.parseResult = .ok body)
    (hproto : env.protocol = Protocol.common_http)
    (hp : body.predicted = some p) (ha : body.actual = some a)
    (ht : body.taskType = some t)
    (hshape : npShape a = none ∨ npShape p = none) :
    (EventHandler.post env model reg inp).result =
      .error (.numpyConversion "Failed to initialize NumPy array from inputs") ∧
    statusOf (EventHandler.post env model reg inp).result = 500 ∧
    (EventHandler.post env model reg inp).modelInvoked = false ∧
    (EventHandler.post env model reg inp).registry = reg := by
  have h : EventHandler.post env model reg inp =
      errOutcome reg
        (.numpyConversion "Failed to initialize NumPy array from inputs") := by
    rcases hshape with hs | hs
    · simp [EventHandler.post, hbody, hproto, get_request_handler,
        CommonRequestHandler.validate, CommonRequestHandler.extract_request,
        hp, ha, ht, hs]
    · rcases hsa : npShape a with _ | sa <;>
        simp [EventHandler.post, hbody, hproto, get_request_handler,
          CommonRequestHandler.validate, CommonRequestHandler.extract_request,
          hp, ha, ht, hsa, hs]
  rw [h]
  exact ⟨rfl, rfl, rfl, rfl⟩

/-- C9 witness: a concrete request whose `actual` is the ragged list
`[[1, 2], [3]]` fails the conversion step with a 500. -/
theorem c9_conversion_failure_witness :
    (EventHandler.post envDisabled modelConstData [] inpRagged).result =
      .error (.numpyConversion "Failed to initialize NumPy array from inputs") ∧
    statusOf (EventHandler.post envDisabled modelConstData [] inpRagged).result
      = 500 ∧
    (EventHandler.post envDisabled modelConstData [] inpRagged).modelInvoked
      = false ∧
    (EventHandler.post envDisabled modelConstData [] inpRagged).registry
      = [] :=
  c9_conversion_failure envDisabled modelConstData [] inpRagged bodyRagged
    (PyVal.ofInts [1, 0, 1]) raggedVal "classification"
    rfl rfl rfl rfl rfl (Or.inl rfl)

/-- C10: when the model's response carries no data, the pipeline makes no
relay attempt and writes no response body — whether or not a destination is
configured — the request succeeds, and the metrics step is the only effect on
the run's state. -/
theorem c10_no_data_no_relay_no_write (env : PipelineEnv) (model : CEModel)
    (reg : Registry) (inp : PipelineInput) (body : RawBody) (p a : PyVal)
    (t : String) (sa sp : Shape)
    (hbody : inp.parseResult = .ok body)
    (hproto : env.protocol = Protocol.common_http)
    (hp : body.predicted = some p) (ha : body.actual = some a)
    (ht : body.taskType = some t)
    (hsa : npShape a = some sa) (hsp : npShape p = some sp)
    (hdata : (model.process_event a p
      (inp.headers ++ [("task_type", t)])).data = none) :
    (EventHandler.post env model reg inp).relayAttempted = none ∧
    (EventHandler.post env model reg inp).bodyWritten = none ∧
    (EventHandler.post env model reg inp).result = .ok () ∧
    (EventHandler.post env model reg inp).registry =
      (metricsStep reg env.event_type
        (model.process_event a p
          (inp.headers ++ [("task_type", t)])).metrics).1 := by
  rw [post_success_run env model reg inp body p a t sa sp hbody hproto hp ha
    ht hsa hsp, hdata]
  exact ⟨rfl, rfl, rfl, rfl⟩

/-- C10 witness: a model answering with no data, a configured destination, and
a valid metrics batch — no relay, no body, success, metrics applied. -/
theorem c10_no_data_no_relay_no_write_witness :
    (EventHandler.post envReply modelNoData [] inpOk).relayAttempted = none ∧
    (EventHandler.post envReply modelNoData [] inpOk).bodyWritten = none ∧
    (EventHandler.post envReply modelNoData [] inpOk).result = .ok () ∧
    (EventHandler.post envReply modelNoData [] inpOk).registry =
      (metricsStep [] envReply.event_type
        (modelNoData.process_event (PyVal.ofInts [1, 1, 1])
          (PyVal.ofInts [1, 0, 1])
          (inpOk.headers ++ [("task_type", "classification")])).metrics).1 :=
  c10_no_data_no_relay_no_write envReply modelNoData [] inpOk bodyOk
    (PyVal.ofInts [1, 0, 1]) (PyVal.ofInts [1, 1, 1]) "classification"
    (.dim 3 .scalar) (.dim 3 .scalar)
    rfl rfl rfl rfl rfl rfl rfl rfl
